import Mathlib

/-!
Verification of the tax estimation core (`src/utils/calculator.js` and
`src/data/taxConfig.js`).

Monetary amounts and rates are modelled as rationals (`ℚ`); the JavaScript
source computes with IEEE doubles, but every property below concerns exact
arithmetic identities of the algorithms, for which `ℚ` is the faithful
idealisation.  Fallible lookups (JavaScript `throw`) are modelled with
`Except`.  The `calculatedAt : Date` timestamp field of the result object is
omitted: it carries no monetary content.
-/

/-- Filing status string constant from `taxConfig.js` (`FILING_STATUSES.SINGLE`). -/
def statusSingle : String := "single"

/-- Filing status string constant from `taxConfig.js`
(`FILING_STATUSES.MARRIED_FILING_JOINTLY`). -/
def statusMarried : String := "married_filing_jointly"

/-- An unsupported filing status string used in concrete failure scenarios. -/
def statusNobody : String := "nobody"

/-- Default employer label used by `aggregatePaystubEntries`
(calculator.js line 196). -/
def unlabeledLabel : String := "Unlabeled"

/-- Employer label used in concrete aggregation scenarios. -/
def acmeLabel : String := "acme"

/-- JavaScript truthiness fallback `x || d` on an optional numeric field:
a missing value or a present value equal to `0` falls through to `d`
(JavaScript treats `0`, `null` and `undefined` all as falsy). -/
def jsOr (x : Option ℚ) (d : ℚ) : ℚ :=
  match x with
  | none => d
  | some v => if v = 0 then d else v

/-- Embeds `roundToDollar` (calculator.js lines 301-303).  JavaScript
`Math.round(x)` rounds to the nearest integer with halves rounded toward
positive infinity, i.e. `⌊x + 1/2⌋`. -/
def roundToDollar (amount : ℚ) : ℚ := ((⌊amount + 1/2⌋ : ℤ) : ℚ)

/-- One bracket record of `TAX_BRACKETS` (taxConfig.js lines 48-91):
`max = none` models the JavaScript `max: null` of the final band. -/
structure TaxBracket where
  rate : ℚ
  min : ℚ
  max : Option ℚ

/-- One entry of the `bracketBreakdown` array pushed at calculator.js
lines 86-92; the income and tax fields are stored rounded. -/
structure TaxBracketResult where
  rate : ℚ
  min : ℚ
  max : Option ℚ
  incomeInBracket : ℚ
  taxFromBracket : ℚ

/-- One executed loop iteration of `calculateTaxLiability` (lines 49-93),
carrying the unrounded `incomeInBracket` and `taxFromBracket` locals. -/
structure BandCalc where
  bracket : TaxBracket
  incomeInBracket : ℚ
  taxFromBracket : ℚ

/-- Return value of `calculateTaxLiability` (lines 95-98). -/
structure LiabilityResult where
  liability : ℚ
  bracketBreakdown : List TaxBracketResult

/-- Aggregated totals returned by the aggregation functions. -/
structure AggregateTotals where
  totalWages : ℚ
  totalWithheld : ℚ

/-- A W-2 entry (`types.js`); only the fields read by the calculation core
are modelled (`label` is read only by the duplicate-detection collaborator,
kept for completeness).  Optional numeric fields are `Option ℚ`. -/
structure W2Entry where
  label : Option String
  box1Wages : Option ℚ
  box2Withheld : Option ℚ

/-- A paystub entry (`types.js`); only the fields read by the aggregation
and projection core are modelled.  `payDate` is the parsed time value
(`new Date(...).getTime()`) of a valid pay date. -/
structure PaystubEntry where
  label : Option String
  payDate : Option ℤ
  ytdTaxableWages : Option ℚ
  ytdFedWithheld : Option ℚ
  currentTaxableWages : Option ℚ
  currentFedWithheld : Option ℚ

/-- Concrete paystub with a present-but-zero YTD wage and current wages 500,
used to exhibit the truthiness fallback. -/
def zeroYtdStub500 : PaystubEntry := ⟨some acmeLabel, none, some 0, none, some 500, none⟩

/-- Concrete paystub with a present-but-zero YTD wage and current wages 300. -/
def zeroYtdStub300 : PaystubEntry := ⟨some acmeLabel, none, some 0, none, some 300, none⟩

/-- Inputs of `calculateTaxEstimate` (calculator.js lines 107-114). -/
structure TaxCalculationInputs where
  totalWages : ℚ
  totalWithheld : ℚ
  standardDeduction : ℚ
  filingStatus : String
  taxYear : ℤ

/-- Result object of `calculateTaxEstimate` (lines 134-146), without the
`calculatedAt` timestamp. -/
structure Results where
  totalWages : ℚ
  totalWithheld : ℚ
  standardDeduction : ℚ
  taxableIncome : ℚ
  taxLiability : ℚ
  netDueRefund : ℚ
  isRefund : Bool
  refundAmount : ℚ
  amountDue : ℚ
  bracketBreakdown : List TaxBracketResult

/-- The two `throw new Error(...)` sites of `getStandardDeduction` /
`getTaxBrackets` (taxConfig.js lines 176-205): unsupported tax year, or
unsupported filing status for a supported year. -/
inductive TaxError where
  | unsupportedYear (taxYear : ℤ)
  | unsupportedStatus (taxYear : ℤ) (filingStatus : String)
deriving DecidableEq

/-- The `STANDARD_DEDUCTIONS` table (taxConfig.js lines 29-40), as a keyed
lookup returning `none` for keys absent from the object. -/
def STANDARD_DEDUCTIONS (taxYear : ℤ) (filingStatus : String) : Option ℚ :=
  if taxYear = 2025 then
    if filingStatus = statusSingle then some 15000
    else if filingStatus = statusMarried then some 30000
    else none
  else if taxYear = 2026 then
    if filingStatus = statusSingle then some 15400
    else if filingStatus = statusMarried then some 30800
    else none
  else none

/-- The 2025 single-filer bracket array (taxConfig.js lines 50-58). -/
def singleBrackets2025 : List TaxBracket :=
  [⟨10/100, 0, some 11600⟩, ⟨12/100, 11600, some 47150⟩,
   ⟨22/100, 47150, some 100525⟩, ⟨24/100, 100525, some 191950⟩,
   ⟨32/100, 191950, some 243725⟩, ⟨35/100, 243725, some 609350⟩,
   ⟨37/100, 609350, none⟩]

/-- The 2025 married-filing-jointly bracket array (taxConfig.js lines 59-67). -/
def marriedBrackets2025 : List TaxBracket :=
  [⟨10/100, 0, some 23200⟩, ⟨12/100, 23200, some 94300⟩,
   ⟨22/100, 94300, some 201050⟩, ⟨24/100, 201050, some 383900⟩,
   ⟨32/100, 383900, some 487450⟩, ⟨35/100, 487450, some 731200⟩,
   ⟨37/100, 731200, none⟩]

/-- The 2026 single-filer bracket array (taxConfig.js lines 72-80). -/
def singleBrackets2026 : List TaxBracket :=
  [⟨10/100, 0, some 11900⟩, ⟨12/100, 11900, some 48350⟩,
   ⟨22/100, 48350, some 103050⟩, ⟨24/100, 103050, some 196750⟩,
   ⟨32/100, 196750, some 249825⟩, ⟨35/100, 249825, some 624600⟩,
   ⟨37/100, 624600, none⟩]

/-- The 2026 married-filing-jointly bracket array (taxConfig.js lines 81-89). -/
def marriedBrackets2026 : List TaxBracket :=
  [⟨10/100, 0, some 23800⟩, ⟨12/100, 23800, some 96700⟩,
   ⟨22/100, 96700, some 206100⟩, ⟨24/100, 206100, some 393500⟩,
   ⟨32/100, 393500, some 499650⟩, ⟨35/100, 499650, some 749500⟩,
   ⟨37/100, 749500, none⟩]

/-- The `TAX_BRACKETS` table (taxConfig.js lines 48-91). -/
def TAX_BRACKETS (taxYear : ℤ) (filingStatus : String) : Option (List TaxBracket) :=
  if taxYear = 2025 then
    if filingStatus = statusSingle then some singleBrackets2025
    else if filingStatus = statusMarried then some marriedBrackets2025
    else none
  else if taxYear = 2026 then
    if filingStatus = statusSingle then some singleBrackets2026
    else if filingStatus = statusMarried then some marriedBrackets2026
    else none
  else none

/-- Embeds `getStandardDeduction` (taxConfig.js lines 176-186): throws on a
missing year, then on a missing status for that year. -/
def getStandardDeduction (taxYear : ℤ) (filingStatus : String) :
    Except TaxError ℚ :=
  if taxYear = 2025 ∨ taxYear = 2026 then
    match STANDARD_DEDUCTIONS taxYear filingStatus with
    | some d => .ok d
    | none => .error (.unsupportedStatus taxYear filingStatus)
  else .error (.unsupportedYear taxYear)

/-- Embeds `getTaxBrackets` (taxConfig.js lines 195-205). -/
def getTaxBrackets (taxYear : ℤ) (filingStatus : String) :
    Except TaxError (List TaxBracket) :=
  if taxYear = 2025 ∨ taxYear = 2026 then
    match TAX_BRACKETS taxYear filingStatus with
    | some bs => .ok bs
    | none => .error (.unsupportedStatus taxYear filingStatus)
  else .error (.unsupportedYear taxYear)

/-- The bracket loop of `calculateTaxLiability` (calculator.js lines 49-93),
as a recursion over the remaining bracket list.  The state variable
`remaining` is `remainingIncome`; each executed iteration is emitted as a
`BandCalc` holding the unrounded `incomeInBracket` and `taxFromBracket`
(`totalTax` is recovered as the sum of the emitted `taxFromBracket`s, and
the pushed breakdown entry as the rounding of the emitted fields). -/
def taxWalk (taxableIncome : ℚ) : List TaxBracket → ℚ → List BandCalc
  | [], _ => []
  | b :: bs, remaining =>
    if remaining ≤ 0 then []
    else
      match b.max with
      | none =>
        ⟨b, remaining, remaining * b.rate⟩ :: taxWalk taxableIncome bs (remaining - remaining)
      | some mx =>
        if taxableIncome ≤ b.min then taxWalk taxableIncome bs remaining
        else
          if mx ≤ taxableIncome then
            let inc := min (mx - b.min) remaining
            ⟨b, inc, inc * b.rate⟩ :: taxWalk taxableIncome bs (remaining - inc)
          else
            let inc := taxableIncome - b.min
            ⟨b, inc, inc * b.rate⟩ :: taxWalk taxableIncome bs (remaining - inc)

/-- Converts an executed iteration into the breakdown entry pushed at
calculator.js lines 86-92 (fields rounded at the point of reporting). -/
def reportBand (c : BandCalc) : TaxBracketResult :=
  ⟨c.bracket.rate, c.bracket.min, c.bracket.max,
   roundToDollar c.incomeInBracket, roundToDollar c.taxFromBracket⟩

/-- The body of `calculateTaxLiability` for a given bracket array
(calculator.js lines 36-98): zero-floor early return, then the bracket
walk; `liability` is the rounded unrounded-sum `totalTax`. -/
def computeLiability (taxableIncome : ℚ) (brackets : List TaxBracket) :
    LiabilityResult :=
  if taxableIncome ≤ 0 then ⟨0, []⟩
  else
    let walk := taxWalk taxableIncome brackets taxableIncome
    ⟨roundToDollar ((walk.map BandCalc.taxFromBracket).sum), walk.map reportBand⟩

/-- Embeds `calculateTaxLiability` (calculator.js lines 34-99): the
non-positive-income early return happens before `getTaxBrackets` is
consulted, so unsupported (year, status) pairs only fail on the positive
path. -/
def calculateTaxLiability (taxableIncome : ℚ) (taxYear : ℤ)
    (filingStatus : String) : Except TaxError LiabilityResult :=
  if taxableIncome ≤ 0 then .ok ⟨0, []⟩
  else
    match getTaxBrackets taxYear filingStatus with
    | .error e => .error e
    | .ok brackets => .ok (computeLiability taxableIncome brackets)

/-- Embeds `calculateTaxEstimate` (calculator.js lines 107-147). -/
def calculateTaxEstimate (inputs : TaxCalculationInputs) :
    Except TaxError Results :=
  let taxableIncome := max 0 (inputs.totalWages - inputs.standardDeduction)
  match calculateTaxLiability taxableIncome inputs.taxYear inputs.filingStatus with
  | .error e => .error e
  | .ok lr =>
    let netDueRefund := lr.liability - inputs.totalWithheld
    let isRefund := decide (netDueRefund < 0)
    let refundAmount := if netDueRefund < 0 then |netDueRefund| else 0
    let amountDue := if netDueRefund < 0 then 0 else netDueRefund
    .ok ⟨roundToDollar inputs.totalWages, roundToDollar inputs.totalWithheld,
         roundToDollar inputs.standardDeduction, roundToDollar taxableIncome,
         roundToDollar lr.liability, roundToDollar netDueRefund, isRefund,
         roundToDollar refundAmount, roundToDollar amountDue,
         lr.bracketBreakdown⟩

/-- Embeds `aggregateW2Entries` (calculator.js lines 159-176): empty input
short-circuits to zeros, otherwise the two `reduce` folds followed by
rounding.  The `entry.box1Wages || 0` falsiness fallback is `jsOr`. -/
def aggregateW2Entries (w2Entries : List W2Entry) : AggregateTotals :=
  match w2Entries with
  | [] => ⟨0, 0⟩
  | _ :: _ =>
    ⟨roundToDollar (w2Entries.foldl (fun s e => s + jsOr e.box1Wages 0) 0),
     roundToDollar (w2Entries.foldl (fun s e => s + jsOr e.box2Withheld 0) 0)⟩

/-- Label normalisation of `aggregatePaystubEntries` (calculator.js
line 196): the label, defaulted by truthiness to the string Unlabeled,
trimmed and lower-cased. -/
def normLabel (label : Option String) : String :=
  (match label with
   | none => unlabeledLabel
   | some s => if s = "" then unlabeledLabel else s).trim.toLower

/-- The sort comparator of `aggregatePaystubEntries` (calculator.js lines
211-225): pay-date difference (descending) when both dates are present and
distinct, otherwise YTD-wage difference (descending). -/
def stubCompare (a b : PaystubEntry) : ℚ :=
  match a.payDate, b.payDate with
  | some ta, some tb =>
    if ta = tb then jsOr b.ytdTaxableWages 0 - jsOr a.ytdTaxableWages 0
    else ((tb - ta : ℤ) : ℚ)
  | _, _ => jsOr b.ytdTaxableWages 0 - jsOr a.ytdTaxableWages 0

/-- Boolean form of the comparator: `a` may stay before `b` exactly when the
comparator is non-positive, which is how a stable ECMAScript sort (ES2019+)
consumes a comparator. -/
def stubLe (a b : PaystubEntry) : Bool := decide (stubCompare a b ≤ 0)

/-- The `stubs.sort(...)` call (calculator.js line 211), modelled as the
stable `mergeSort` with the relation induced by the comparator. -/
def sortStubs (stubs : List PaystubEntry) : List PaystubEntry :=
  stubs.mergeSort stubLe

/-- Wages contributed by the selected stub (calculator.js line 231):
`latestStub.ytdTaxableWages || latestStub.currentTaxableWages || 0`. -/
def stubWages (e : PaystubEntry) : ℚ :=
  jsOr e.ytdTaxableWages (jsOr e.currentTaxableWages 0)

/-- Withholding contributed by the selected stub (calculator.js line 232). -/
def stubWithheld (e : PaystubEntry) : ℚ :=
  jsOr e.ytdFedWithheld (jsOr e.currentFedWithheld 0)

/-- One step of the `byEmployer` object construction (calculator.js lines
195-203): push the entry onto the list of its key, creating the key at the end
on first sight (string-keyed JavaScript objects preserve insertion order). -/
def addToGroups (groups : List (String × List PaystubEntry)) (key : String)
    (e : PaystubEntry) : List (String × List PaystubEntry) :=
  match groups with
  | [] => [(key, [e])]
  | (k, es) :: rest =>
    if k = key then (k, es ++ [e]) :: rest
    else (k, es) :: addToGroups rest key e

/-- The full `byEmployer` grouping (calculator.js lines 193-203). -/
def groupStubs (entries : List PaystubEntry) : List (String × List PaystubEntry) :=
  entries.foldl (fun gs e => addToGroups gs (normLabel e.label) e) []

/-- Embeds `aggregatePaystubEntries` (calculator.js lines 187-242): group by
normalized label, sort each group by the comparator, take the first stub of
each sorted group as authoritative, sum the selected contributions, round
the totals. -/
def aggregatePaystubEntries (paystubEntries : List PaystubEntry) :
    AggregateTotals :=
  match paystubEntries with
  | [] => ⟨0, 0⟩
  | _ :: _ =>
    let totals := (groupStubs paystubEntries).foldl
      (fun (acc : ℚ × ℚ) g =>
        match sortStubs g.2 with
        | [] => acc
        | latest :: _ => (acc.1 + stubWages latest, acc.2 + stubWithheld latest))
      (0, 0)
    ⟨roundToDollar totals.1, roundToDollar totals.2⟩

/-- Embeds `aggregateAllEntries` (calculator.js lines 251-259). -/
def aggregateAllEntries (w2Entries : List W2Entry)
    (paystubEntries : List PaystubEntry) : AggregateTotals :=
  let w2Totals := aggregateW2Entries w2Entries
  let paystubTotals := aggregatePaystubEntries paystubEntries
  ⟨roundToDollar (w2Totals.totalWages + paystubTotals.totalWages),
   roundToDollar (w2Totals.totalWithheld + paystubTotals.totalWithheld)⟩

/-- Embeds `projectYearEnd` (calculator.js lines 272-289). -/
def projectYearEnd (paystub : PaystubEntry) (paychecksRemaining : ℚ) : ℚ × ℚ :=
  let ytdWages := jsOr paystub.ytdTaxableWages 0
  let ytdWithheld := jsOr paystub.ytdFedWithheld 0
  let currentWages := jsOr paystub.currentTaxableWages 0
  let currentWithheld := jsOr paystub.currentFedWithheld 0
  (roundToDollar (ytdWages + currentWages * paychecksRemaining),
   roundToDollar (ytdWithheld + currentWithheld * paychecksRemaining))

/-- Embeds `calculateFromSession` (calculator.js lines 362-380). -/
def calculateFromSession (taxYear : ℤ) (filingStatus : String)
    (w2Entries : List W2Entry) (paystubEntries : List PaystubEntry) :
    Except TaxError Results :=
  let totals := aggregateAllEntries w2Entries paystubEntries
  match getStandardDeduction taxYear filingStatus with
  | .error e => .error e
  | .ok standardDeduction =>
    calculateTaxEstimate
      ⟨totals.totalWages, totals.totalWithheld, standardDeduction,
       filingStatus, taxYear⟩

/-- Structural validity of a bracket schedule, following the data model of
the spec (spec section 3): starting at lower bound `m`, bands are contiguous and
ascending, and exactly the last band is unbounded. -/
def validFrom (m : ℚ) : List TaxBracket → Bool
  | [] => false
  | b :: bs =>
    decide (b.min = m) &&
    (match b.max, bs with
     | none, [] => true
     | some mx, _ :: _ => decide (m < mx) && validFrom mx bs
     | none, _ :: _ => false
     | some _, [] => false)

/-- A valid schedule is a valid band chain whose first lower bound is 0. -/
def validSchedule (brackets : List TaxBracket) : Bool := validFrom 0 brackets

/-- Modelled from the spec: the rounding convention the specification
claims (round half away from zero), used only for comparison with the
the `roundToDollar` of the source.  Missing from src: the source uses
`Math.round`, which is round-half-up. -/
def roundHalfAwayFromZero (amount : ℚ) : ℚ :=
  if amount < 0 then -((⌊-amount + 1/2⌋ : ℤ) : ℚ) else ((⌊amount + 1/2⌋ : ℤ) : ℚ)

/-! ### Helper lemmas -/

/-- Evaluation rule for `roundToDollar`: it returns the unique integer `n`
with `n - 1/2 ≤ q < n + 1/2`. -/
theorem roundToDollar_eval (q r : ℚ) (n : ℤ) (hr : (n : ℚ) = r)
    (h1 : (n : ℚ) ≤ q + 1/2) (h2 : q + 1/2 < n + 1) : roundToDollar q = r := by
  unfold roundToDollar
  rw [Int.floor_eq_iff.mpr ⟨h1, by exact_mod_cast h2⟩, hr]

theorem jsOr_zero (x : Option ℚ) : jsOr x 0 = x.getD 0 := by
  cases x with
  | none => rfl
  | some v =>
    by_cases h : v = 0 <;> simp [jsOr, h]

/-- C10: for every non-positive taxable income and every (taxYear,
filingStatus) pair whatsoever — including pairs absent from the bracket
table — the liability calculation returns liability 0 with an empty
breakdown and no error, because the early return precedes the schedule
lookup. -/
theorem nonpositive_income_no_lookup (taxableIncome : ℚ) (taxYear : ℤ)
    (filingStatus : String) (h : taxableIncome ≤ 0) :
    calculateTaxLiability taxableIncome taxYear filingStatus = .ok ⟨0, []⟩ := by
  simp [calculateTaxLiability, h]

theorem nonpositive_income_no_lookup_witness :
    TAX_BRACKETS 1980 statusNobody = none ∧
    calculateTaxLiability (-7) 1980 statusNobody = .ok ⟨0, []⟩ :=
  ⟨by norm_num [TAX_BRACKETS, statusSingle, statusMarried],
   nonpositive_income_no_lookup (-7) 1980 statusNobody (by norm_num)⟩

/-- Concrete rounding facts used in scenario evaluations. -/
theorem round60000 : roundToDollar 60000 = 60000 :=
  roundToDollar_eval _ _ 60000 (by norm_num) (by norm_num) (by norm_num)

theorem round6000 : roundToDollar 6000 = 6000 :=
  roundToDollar_eval _ _ 6000 (by norm_num) (by norm_num) (by norm_num)

theorem round15000 : roundToDollar 15000 = 15000 :=
  roundToDollar_eval _ _ 15000 (by norm_num) (by norm_num) (by norm_num)

theorem round45000 : roundToDollar 45000 = 45000 :=
  roundToDollar_eval _ _ 45000 (by norm_num) (by norm_num) (by norm_num)

theorem round5168 : roundToDollar 5168 = 5168 :=
  roundToDollar_eval _ _ 5168 (by norm_num) (by norm_num) (by norm_num)

theorem roundNeg832 : roundToDollar (-832) = -832 :=
  roundToDollar_eval _ _ (-832) (by norm_num) (by norm_num) (by norm_num)

theorem round832 : roundToDollar 832 = 832 :=
  roundToDollar_eval _ _ 832 (by norm_num) (by norm_num) (by norm_num)

theorem round0 : roundToDollar 0 = 0 :=
  roundToDollar_eval _ _ 0 (by norm_num) (by norm_num) (by norm_num)

theorem round11600 : roundToDollar 11600 = 11600 :=
  roundToDollar_eval _ _ 11600 (by norm_num) (by norm_num) (by norm_num)

theorem round1160 : roundToDollar 1160 = 1160 :=
  roundToDollar_eval _ _ 1160 (by norm_num) (by norm_num) (by norm_num)

theorem round33400 : roundToDollar 33400 = 33400 :=
  roundToDollar_eval _ _ 33400 (by norm_num) (by norm_num) (by norm_num)

theorem round4008 : roundToDollar 4008 = 4008 :=
  roundToDollar_eval _ _ 4008 (by norm_num) (by norm_num) (by norm_num)


theorem scenarioA_walk :
    taxWalk 45000 singleBrackets2025 45000 =
      [⟨⟨10/100, 0, some 11600⟩, 11600, 1160⟩,
       ⟨⟨12/100, 11600, some 47150⟩, 33400, 4008⟩] := by
  norm_num [taxWalk, singleBrackets2025, min_def]

theorem scenarioA_compute :
    computeLiability 45000 singleBrackets2025 =
      ⟨5168, [⟨10/100, 0, some 11600, 11600, 1160⟩,
              ⟨12/100, 11600, some 47150, 33400, 4008⟩]⟩ := by
  unfold computeLiability
  rw [if_neg (by norm_num), scenarioA_walk]
  norm_num [reportBand, round5168, round11600, round1160, round33400, round4008]

theorem scenarioA_liability :
    calculateTaxLiability 45000 2025 statusSingle =
      .ok ⟨5168, [⟨10/100, 0, some 11600, 11600, 1160⟩,
                  ⟨12/100, 11600, some 47150, 33400, 4008⟩]⟩ := by
  rw [calculateTaxLiability, if_neg (by norm_num)]
  rw [show getTaxBrackets 2025 statusSingle = .ok singleBrackets2025 by
        norm_num [getTaxBrackets, TAX_BRACKETS]]
  simp [scenarioA_compute]

theorem scenarioA_aggregate :
    aggregateAllEntries [(⟨none, some 60000, some 6000⟩ : W2Entry)] [] =
      ⟨60000, 6000⟩ := by
  rw [aggregateAllEntries, aggregateW2Entries]
  norm_num [aggregatePaystubEntries, jsOr, round60000, round6000]

theorem scenarioA_estimate :
    calculateTaxEstimate ⟨60000, 6000, 15000, statusSingle, 2025⟩ =
      .ok ⟨60000, 6000, 15000, 45000, 5168, -832, true, 832, 0,
           [⟨10/100, 0, some 11600, 11600, 1160⟩,
            ⟨12/100, 11600, some 47150, 33400, 4008⟩]⟩ := by
  unfold calculateTaxEstimate
  dsimp only
  rw [show max (0:ℚ) (60000 - 15000) = 45000 by norm_num, scenarioA_liability]
  norm_num [round60000, round6000, round15000, round45000, round5168, round832,
    round0, abs_of_nonpos, roundNeg832, decide_eq_true_eq]

/-- C1: for tax year 2025, single filing status, one W-2 entry with
grossWages 60000 and federalWithheld 6000, the full pipeline produces
taxableIncome 45000, taxLiability 5168, netDueOrRefund -832, isRefund true
and refundAmount 832. -/
theorem scenarioA_pipeline :
    ∃ r : Results,
      calculateFromSession 2025 statusSingle [⟨none, some 60000, some 6000⟩] [] = .ok r ∧
      r.taxableIncome = 45000 ∧ r.taxLiability = 5168 ∧ r.netDueRefund = -832 ∧
      r.isRefund = true ∧ r.refundAmount = 832 := by
  have h : calculateFromSession 2025 statusSingle [⟨none, some 60000, some 6000⟩] [] =
      .ok ⟨60000, 6000, 15000, 45000, 5168, -832, true, 832, 0,
           [⟨10/100, 0, some 11600, 11600, 1160⟩,
            ⟨12/100, 11600, some 47150, 33400, 4008⟩]⟩ := by
    unfold calculateFromSession
    rw [scenarioA_aggregate]
    dsimp only
    rw [show getStandardDeduction 2025 statusSingle = .ok 15000 by
          norm_num [getStandardDeduction, STANDARD_DEDUCTIONS]]
    exact scenarioA_estimate
  exact ⟨_, h, rfl, rfl, rfl, rfl, rfl⟩

theorem round40000 : roundToDollar 40000 = 40000 :=
  roundToDollar_eval _ _ 40000 (by norm_num) (by norm_num) (by norm_num)

/-- C8 counterexample: the projection rounds its outputs, so for a
fractional year-to-date value the returned figure differs from the exact
formula `ytd + current * remaining`. -/
theorem projection_rounding_cex :
    (projectYearEnd ⟨none, none, some (1/2), none, none, none⟩ 0).1 = 1 ∧
    ((1:ℚ)/2 + 0 * 0 = 1/2) ∧ (1:ℚ) ≠ 1/2 := by
  have hr : roundToDollar (1/2) = 1 :=
    roundToDollar_eval _ _ 1 (by norm_num) (by norm_num) (by norm_num)
  refine ⟨?_, by norm_num, by norm_num⟩
  norm_num [projectYearEnd, jsOr, round0, hr]

/-- C8 (amended): the projection returns the formula values rounded to the
nearest whole unit, with missing year-to-date or current-period values
treated as 0; in particular scenario D yields projectedWages 40000. -/
theorem projection_formula :
    (∀ (p : PaystubEntry) (paychecksRemaining : ℚ),
      projectYearEnd p paychecksRemaining =
        (roundToDollar (p.ytdTaxableWages.getD 0 +
           p.currentTaxableWages.getD 0 * paychecksRemaining),
         roundToDollar (p.ytdFedWithheld.getD 0 +
           p.currentFedWithheld.getD 0 * paychecksRemaining))) ∧
    projectYearEnd ⟨none, none, some 20000, none, some 2000, none⟩ 10 =
      (40000, 0) := by
  constructor
  · intro p r
    unfold projectYearEnd
    rw [jsOr_zero, jsOr_zero, jsOr_zero, jsOr_zero]
  · norm_num [projectYearEnd, jsOr, round0, round40000]

/-- C5 counterexample: `Math.round` rounds halves toward positive infinity,
not away from zero; on the reported `netDueOrRefund` of an estimate whose
exact value is -5/2 the code reports -2 where round-half-away-from-zero
gives -3. -/
theorem rounding_half_up_cex :
    roundToDollar (-5/2) = -2 ∧ roundHalfAwayFromZero (-5/2) = -3 ∧
    (calculateTaxEstimate ⟨0, 5/2, 0, statusSingle, 2025⟩).map Results.netDueRefund
      = .ok (-2) ∧ ((-2:ℚ) ≠ -3) := by
  have h1 : roundToDollar (-5/2) = -2 :=
    roundToDollar_eval _ _ (-2) (by norm_num) (by norm_num) (by norm_num)
  refine ⟨h1, ?_, ?_, by norm_num⟩
  · rw [roundHalfAwayFromZero, if_pos (by norm_num)]
    rw [show -(-5/2 : ℚ) + 1/2 = ((3:ℤ) : ℚ) by norm_num, Int.floor_intCast]
    norm_num
  · unfold calculateTaxEstimate
    dsimp only
    rw [show max (0:ℚ) (0 - 0) = 0 by norm_num]
    rw [show calculateTaxLiability 0 2025 statusSingle = .ok ⟨0, []⟩ by
          rw [calculateTaxLiability, if_pos (by norm_num)]]
    dsimp only
    rw [show (0:ℚ) - 5/2 = -5/2 by norm_num, h1]
    rfl

/-- C5 (amended): every `roundToDollar` output is the unique integer within
half a unit of its argument with ties resolved toward positive infinity
(round-half-up), which agrees with round-half-away-from-zero on nonnegative
amounts; per-band accumulation is unrounded (the liability is the single
rounding of the unrounded band-tax sum, and the reported breakdown rounds
each band only at reporting); all monetary fields of a successful estimate
are whole units. -/
theorem rounding_policy :
    (∀ q : ℚ, ∃ n : ℤ, roundToDollar q = (n : ℚ) ∧
       (n : ℚ) ≤ q + 1/2 ∧ q + 1/2 < n + 1) ∧
    (∀ q : ℚ, 0 ≤ q → roundToDollar q = roundHalfAwayFromZero q) ∧
    (∀ (taxableIncome : ℚ) (brackets : List TaxBracket),
       (computeLiability taxableIncome brackets).liability =
         roundToDollar (((taxWalk taxableIncome brackets taxableIncome).map
           BandCalc.taxFromBracket).sum) ∧
       (computeLiability taxableIncome brackets).bracketBreakdown =
         (taxWalk taxableIncome brackets taxableIncome).map reportBand) ∧
    (∀ (inputs : TaxCalculationInputs) (res : Results),
       calculateTaxEstimate inputs = .ok res →
       (∃ n : ℤ, res.taxableIncome = (n : ℚ)) ∧
       (∃ n : ℤ, res.taxLiability = (n : ℚ)) ∧
       (∃ n : ℤ, res.netDueRefund = (n : ℚ)) ∧
       (∃ n : ℤ, res.refundAmount = (n : ℚ)) ∧
       (∃ n : ℤ, res.amountDue = (n : ℚ)) ∧
       (∃ n : ℤ, res.totalWages = (n : ℚ)) ∧
       (∃ n : ℤ, res.totalWithheld = (n : ℚ)) ∧
       (∃ n : ℤ, res.standardDeduction = (n : ℚ))) := by
  have hint : ∀ q : ℚ, ∃ n : ℤ, roundToDollar q = (n : ℚ) ∧
      (n : ℚ) ≤ q + 1/2 ∧ q + 1/2 < n + 1 := by
    intro q
    refine ⟨⌊q + 1/2⌋, rfl, Int.floor_le _, ?_⟩
    exact_mod_cast Int.lt_floor_add_one (q + 1/2)
  have hex : ∀ q : ℚ, ∃ n : ℤ, roundToDollar q = (n : ℚ) := fun q =>
    ⟨⌊q + 1/2⌋, rfl⟩
  refine ⟨hint, ?_, ?_, ?_⟩
  · intro q hq
    rw [roundHalfAwayFromZero, if_neg (by exact not_lt.mpr hq)]
    rfl
  · intro ti bs
    by_cases h : ti ≤ 0
    · have hwalk : taxWalk ti bs ti = [] := by
        cases bs with
        | nil => rfl
        | cons b rest => rw [taxWalk, if_pos h]
      rw [computeLiability, if_pos h, hwalk]
      exact ⟨round0.symm, rfl⟩
    · rw [computeLiability, if_neg h]
      exact ⟨rfl, rfl⟩
  · intro inputs res h
    unfold calculateTaxEstimate at h
    dsimp only at h
    cases hcl : calculateTaxLiability (max 0 (inputs.totalWages - inputs.standardDeduction))
        inputs.taxYear inputs.filingStatus with
    | error e => rw [hcl] at h; exact absurd h (by simp)
    | ok lr =>
      rw [hcl] at h
      dsimp only at h
      cases h
      exact ⟨hex _, hex _, hex _, hex _, hex _, hex _, hex _, hex _⟩

theorem rounding_policy_witness :
    (0:ℚ) ≤ 3/2 ∧ roundToDollar (3/2) = roundHalfAwayFromZero (3/2) :=
  ⟨by norm_num, rounding_policy.2.1 (3/2) (by norm_num)⟩

theorem round5 : roundToDollar 5 = 5 :=
  roundToDollar_eval _ _ 5 (by norm_num) (by norm_num) (by norm_num)

theorem round50 : roundToDollar 50 = 50 :=
  roundToDollar_eval _ _ 50 (by norm_num) (by norm_num) (by norm_num)

/-- C3 counterexample: there is no schedule validation in the code.  Given
an empty bracket array, or a malformed one with no unbounded final band,
the liability computation returns a numeric result instead of failing. -/
theorem no_validation_cex :
    validSchedule [] = false ∧
    computeLiability 100 [] = ⟨0, []⟩ ∧
    validSchedule [⟨10/100, 0, some 50⟩] = false ∧
    computeLiability 100 [⟨10/100, 0, some 50⟩] =
      ⟨5, [⟨10/100, 0, some 50, 50, 5⟩]⟩ := by
  refine ⟨rfl, ?_, ?_, ?_⟩
  · rw [computeLiability, if_neg (by norm_num)]
    norm_num [taxWalk, round0]
  · simp [validSchedule, validFrom]
  · rw [computeLiability, if_neg (by norm_num)]
    norm_num [taxWalk, min_def, reportBand, round5, round50]

/-- C3 (amended): the liability computation tolerates empty and malformed
schedules, returning a numeric liability (0 with an empty breakdown for an
empty schedule, and the result of walking whatever bands exist otherwise);
no schedule-structure error is ever raised. -/
theorem no_schedule_validation :
    (∀ taxableIncome : ℚ, computeLiability taxableIncome [] = ⟨0, []⟩) ∧
    computeLiability 100 [⟨10/100, 0, some 50⟩] =
      ⟨5, [⟨10/100, 0, some 50, 50, 5⟩]⟩ := by
  constructor
  · intro ti
    by_cases h : ti ≤ 0
    · rw [computeLiability, if_pos h]
    · rw [computeLiability, if_neg h]
      norm_num [taxWalk, round0]
  · rw [computeLiability, if_neg (by norm_num)]
    norm_num [taxWalk, min_def, reportBand, round5, round50]

/-- C7: a (taxYear, filingStatus) pair absent from the schedule tables makes
the session calculation fail with the unsupported-pair error propagated from
the schedule provider; it never returns a numeric result. -/
theorem unsupported_pair_fails (taxYear : ℤ) (filingStatus : String)
    (w2Entries : List W2Entry) (paystubEntries : List PaystubEntry)
    (h : STANDARD_DEDUCTIONS taxYear filingStatus = none) :
    ∃ e, calculateFromSession taxYear filingStatus w2Entries paystubEntries = .error e ∧
      (e = TaxError.unsupportedYear taxYear ∨
       e = TaxError.unsupportedStatus taxYear filingStatus) := by
  unfold calculateFromSession getStandardDeduction
  by_cases hy : taxYear = 2025 ∨ taxYear = 2026
  · rw [if_pos hy, h]
    exact ⟨_, rfl, Or.inr rfl⟩
  · rw [if_neg hy]
    exact ⟨_, rfl, Or.inl rfl⟩

theorem unsupported_pair_fails_witness :
    STANDARD_DEDUCTIONS 2030 statusSingle = none ∧
    ∃ e, calculateFromSession 2030 statusSingle [] [] = .error e ∧
      (e = TaxError.unsupportedYear 2030 ∨
       e = TaxError.unsupportedStatus 2030 statusSingle) :=
  ⟨by norm_num [STANDARD_DEDUCTIONS],
   unsupported_pair_fails 2030 statusSingle [] []
     (by norm_num [STANDARD_DEDUCTIONS])⟩

theorem taxWalk_nonpos (taxableIncome : ℚ) (brackets : List TaxBracket)
    (remaining : ℚ) (h : remaining ≤ 0) :
    taxWalk taxableIncome brackets remaining = [] := by
  cases brackets with
  | nil => rfl
  | cons b rest => rw [taxWalk, if_pos h]

/-- Sum of the unrounded per-band incomes over a valid band chain starting
at `m`, for income strictly past `m`: the walk telescopes to `ti - m`. -/
theorem walk_inc_sum (brackets : List TaxBracket) : ∀ m ti : ℚ,
    validFrom m brackets = true → m < ti →
    ((taxWalk ti brackets (ti - m)).map BandCalc.incomeInBracket).sum = ti - m := by
  induction brackets with
  | nil => intro m ti h; simp [validFrom] at h
  | cons b rest ih =>
    intro m ti hv hlt
    rw [validFrom.eq_def] at hv
    simp only [Bool.and_eq_true, decide_eq_true_eq] at hv
    obtain ⟨hmin, hrest⟩ := hv
    rw [taxWalk, if_neg (by intro hc; linarith)]
    cases hmax : b.max with
    | none =>
      cases rest with
      | nil => simp [taxWalk_nonpos]
      | cons b2 r2 =>
        rw [hmax] at hrest
        exact absurd hrest (by simp)
    | some mx =>
      cases rest with
      | nil =>
        rw [hmax] at hrest
        exact absurd hrest (by simp)
      | cons b2 r2 =>
        rw [hmax] at hrest
        simp only [Bool.and_eq_true, decide_eq_true_eq] at hrest
        obtain ⟨hmmx, hvrest⟩ := hrest
        dsimp only
        rw [if_neg (by rw [hmin]; exact not_le.mpr hlt)]
        by_cases hge : mx ≤ ti
        · rw [if_pos hge]
          have hinc : min (mx - b.min) (ti - m) = mx - b.min :=
            min_eq_left (by rw [hmin]; linarith)
          rw [hinc, hmin]
          rcases eq_or_lt_of_le hge with heq | hlt2
          · rw [show ti - m - (mx - m) = ti - mx by ring,
               taxWalk_nonpos _ _ _ (by rw [← heq]; linarith)]
            simp
            linarith [heq]
          · rw [show ti - m - (mx - m) = ti - mx by ring]
            simp only [List.map_cons, List.sum_cons]
            rw [ih mx ti hvrest hlt2]
            ring
        · rw [if_neg hge]
          rw [hmin, show ti - m - (ti - m) = 0 by ring,
             taxWalk_nonpos _ _ _ le_rfl]
          simp

theorem validSchedule_single2025 : validSchedule singleBrackets2025 = true := by
  norm_num [validSchedule, singleBrackets2025, validFrom]

/-- C2 counterexample: the reported (rounded) per-band `taxFromBand`s do not
sum to the unrounded liability; at taxableIncome 5 on the valid 2025 single
schedule the reported sum is 1 while the unrounded total is 1/2. -/
theorem bracketSum_reported_cex :
    validSchedule singleBrackets2025 = true ∧
    ((computeLiability 5 singleBrackets2025).bracketBreakdown.map
        TaxBracketResult.taxFromBracket).sum = 1 ∧
    ((taxWalk 5 singleBrackets2025 5).map BandCalc.taxFromBracket).sum = 1/2 ∧
    ((1:ℚ) ≠ 1/2) := by
  have hround : roundToDollar (1/2) = 1 :=
    roundToDollar_eval _ _ 1 (by norm_num) (by norm_num) (by norm_num)
  have hwalk : taxWalk 5 singleBrackets2025 5 =
      [⟨⟨10/100, 0, some 11600⟩, 5, 1/2⟩] := by
    norm_num [taxWalk, singleBrackets2025, min_def]
  refine ⟨validSchedule_single2025, ?_, ?_, by norm_num⟩
  · rw [computeLiability, if_neg (by norm_num), hwalk]
    norm_num [reportBand, hround]
  · rw [hwalk]
    norm_num

/-- C2 (amended): for every taxableIncome ≥ 0 and structurally valid
schedule, the unrounded per-band incomes of the bracket walk sum to
taxableIncome exactly, and the liability is the rounding of the unrounded
per-band tax sum (the reported rounded figures can deviate from both). -/
theorem bracketSum_unrounded (taxableIncome : ℚ) (brackets : List TaxBracket)
    (hv : validSchedule brackets = true) (h0 : 0 ≤ taxableIncome) :
    ((taxWalk taxableIncome brackets taxableIncome).map
        BandCalc.incomeInBracket).sum = taxableIncome ∧
    (computeLiability taxableIncome brackets).liability =
      roundToDollar (((taxWalk taxableIncome brackets taxableIncome).map
        BandCalc.taxFromBracket).sum) := by
  constructor
  · rcases eq_or_lt_of_le h0 with heq | hlt
    · rw [taxWalk_nonpos _ _ _ (le_of_eq heq.symm)]
      simp [← heq]
    · have h := walk_inc_sum brackets 0 taxableIncome hv hlt
      rw [show taxableIncome - 0 = taxableIncome by ring] at h
      exact h
  · by_cases h : taxableIncome ≤ 0
    · rw [computeLiability, if_pos h, taxWalk_nonpos _ _ _ h]
      simpa using round0.symm
    · rw [computeLiability, if_neg h]

theorem bracketSum_unrounded_witness :
    validSchedule singleBrackets2025 = true ∧ ((0:ℚ) ≤ 45000) ∧
    ((taxWalk 45000 singleBrackets2025 45000).map
        BandCalc.incomeInBracket).sum = 45000 :=
  ⟨validSchedule_single2025, by norm_num,
   (bracketSum_unrounded 45000 singleBrackets2025 validSchedule_single2025
     (by norm_num)).1⟩

theorem roundToDollar_mono {q r : ℚ} (h : q ≤ r) :
    roundToDollar q ≤ roundToDollar r := by
  unfold roundToDollar
  exact_mod_cast Int.floor_le_floor (by linarith)

/-- Nonnegativity of the unrounded band-tax sum over a valid chain with
nonnegative rates. -/
theorem walk_tax_nonneg (brackets : List TaxBracket) : ∀ m ti : ℚ,
    validFrom m brackets = true → (∀ br ∈ brackets, 0 ≤ br.rate) → m < ti →
    0 ≤ ((taxWalk ti brackets (ti - m)).map BandCalc.taxFromBracket).sum := by
  induction brackets with
  | nil => intro m ti h; simp [validFrom] at h
  | cons b rest ih =>
    intro m ti hv hr hlt
    obtain ⟨hrb, hrrest⟩ := List.forall_mem_cons.mp hr
    rw [validFrom.eq_def] at hv
    simp only [Bool.and_eq_true, decide_eq_true_eq] at hv
    obtain ⟨hmin, hrest⟩ := hv
    rw [taxWalk, if_neg (by intro hc; linarith)]
    cases hmax : b.max with
    | none =>
      cases rest with
      | nil =>
        dsimp only
        rw [show ti - m - (ti - m) = 0 by ring, taxWalk_nonpos _ _ _ le_rfl]
        simp only [List.map_cons, List.map_nil, List.sum_cons, List.sum_nil,
          add_zero]
        exact mul_nonneg (by linarith) hrb
      | cons b2 r2 =>
        rw [hmax] at hrest
        exact absurd hrest (by simp)
    | some mx =>
      cases rest with
      | nil =>
        rw [hmax] at hrest
        exact absurd hrest (by simp)
      | cons b2 r2 =>
        rw [hmax] at hrest
        simp only [Bool.and_eq_true, decide_eq_true_eq] at hrest
        obtain ⟨hmmx, hvrest⟩ := hrest
        dsimp only
        rw [if_neg (by rw [hmin]; exact not_le.mpr hlt)]
        by_cases hge : mx ≤ ti
        · rw [if_pos hge]
          have hinc : min (mx - b.min) (ti - m) = mx - b.min :=
            min_eq_left (by rw [hmin]; linarith)
          rw [hinc, hmin]
          simp only [List.map_cons, List.sum_cons]
          have hhead : 0 ≤ (mx - m) * b.rate :=
            mul_nonneg (by linarith) hrb
          rcases eq_or_lt_of_le hge with heq | hlt2
          · rw [show ti - m - (mx - m) = ti - mx by ring,
               taxWalk_nonpos _ _ _ (by rw [← heq]; linarith)]
            simpa using hhead
          · have htail := ih mx ti hvrest hrrest hlt2
            rw [show ti - m - (mx - m) = ti - mx by ring]
            linarith
        · rw [if_neg hge]
          rw [hmin, show ti - m - (ti - m) = 0 by ring,
             taxWalk_nonpos _ _ _ le_rfl]
          simp only [List.map_cons, List.map_nil, List.sum_cons, List.sum_nil,
            add_zero]
          exact mul_nonneg (by linarith) hrb

/-- Monotonicity of the unrounded band-tax sum in the taxable income, over a
valid chain with nonnegative rates. -/
theorem walk_tax_mono (brackets : List TaxBracket) : ∀ m a c : ℚ,
    validFrom m brackets = true → (∀ br ∈ brackets, 0 ≤ br.rate) →
    m < a → a ≤ c →
    ((taxWalk a brackets (a - m)).map BandCalc.taxFromBracket).sum ≤
      ((taxWalk c brackets (c - m)).map BandCalc.taxFromBracket).sum := by
  induction brackets with
  | nil => intro m a c h; simp [validFrom] at h
  | cons b rest ih =>
    intro m a c hv hr hma hac
    obtain ⟨hrb, hrrest⟩ := List.forall_mem_cons.mp hr
    rw [validFrom.eq_def] at hv
    simp only [Bool.and_eq_true, decide_eq_true_eq] at hv
    obtain ⟨hmin, hrest⟩ := hv
    rw [taxWalk, taxWalk, if_neg (by intro hc; linarith),
       if_neg (by intro hc; linarith)]
    cases hmax : b.max with
    | none =>
      cases rest with
      | nil =>
        dsimp only
        rw [show a - m - (a - m) = 0 by ring, show c - m - (c - m) = 0 by ring,
           taxWalk_nonpos _ _ _ le_rfl, taxWalk_nonpos _ _ _ le_rfl]
        simp only [List.map_cons, List.map_nil, List.sum_cons, List.sum_nil,
          add_zero]
        exact mul_le_mul_of_nonneg_right (by linarith) hrb
      | cons b2 r2 =>
        rw [hmax] at hrest
        exact absurd hrest (by simp)
    | some mx =>
      cases rest with
      | nil =>
        rw [hmax] at hrest
        exact absurd hrest (by simp)
      | cons b2 r2 =>
        rw [hmax] at hrest
        simp only [Bool.and_eq_true, decide_eq_true_eq] at hrest
        obtain ⟨hmmx, hvrest⟩ := hrest
        dsimp only
        rw [if_neg (show ¬ a ≤ b.min by rw [hmin]; exact not_le.mpr hma)]
        rw [if_neg (show ¬ c ≤ b.min by rw [hmin]; intro hc; linarith)]
        by_cases hgea : mx ≤ a
        · have hgec : mx ≤ c := le_trans hgea hac
          rw [if_pos hgea, if_pos hgec]
          rw [show min (mx - b.min) (a - m) = mx - b.min from
                min_eq_left (by rw [hmin]; linarith),
             show min (mx - b.min) (c - m) = mx - b.min from
                min_eq_left (by rw [hmin]; linarith), hmin]
          simp only [List.map_cons, List.sum_cons]
          rw [show a - m - (mx - m) = a - mx by ring,
             show c - m - (mx - m) = c - mx by ring]
          rcases eq_or_lt_of_le hgea with heqa | hlta
          · rw [taxWalk_nonpos _ _ _ (by rw [← heqa]; linarith)]
            rcases eq_or_lt_of_le hgec with heqc | hltc
            · rw [taxWalk_nonpos _ _ _ (by rw [← heqc]; linarith)]
            · have := walk_tax_nonneg (b2 :: r2) mx c hvrest hrrest hltc
              simp only [List.map_nil, List.sum_nil, add_zero]
              linarith
          · have := ih mx a c hvrest hrrest hlta hac
            linarith
        · rw [if_neg hgea]
          rw [hmin, show a - m - (a - m) = 0 by ring,
             taxWalk_nonpos _ _ _ le_rfl]
          by_cases hgec : mx ≤ c
          · rw [if_pos hgec]
            rw [show min (mx - m) (c - m) = mx - m from
                  min_eq_left (by linarith)]
            simp only [List.map_cons, List.map_nil, List.sum_cons,
              List.sum_nil, add_zero]
            rw [show c - m - (mx - m) = c - mx by ring]
            have hhead : (a - m) * b.rate ≤ (mx - m) * b.rate :=
              mul_le_mul_of_nonneg_right (by push_neg at hgea; linarith) hrb
            rcases eq_or_lt_of_le hgec with heqc | hltc
            · rw [taxWalk_nonpos _ _ _ (by rw [← heqc]; linarith)]
              simpa using hhead
            · have := walk_tax_nonneg (b2 :: r2) mx c hvrest hrrest hltc
              linarith
          · rw [if_neg hgec]
            rw [show c - m - (c - m) = 0 by ring,
               taxWalk_nonpos _ _ _ le_rfl]
            simp only [List.map_cons, List.map_nil, List.sum_cons,
              List.sum_nil, add_zero]
            exact mul_le_mul_of_nonneg_right (by linarith) hrb

/-- C9: for a fixed structurally valid schedule with nonnegative rates, the
computed (rounded) liability is monotone in the taxable income. -/
theorem liability_monotone (brackets : List TaxBracket)
    (hv : validSchedule brackets = true)
    (hr : ∀ br ∈ brackets, 0 ≤ br.rate) (a c : ℚ) (hac : a ≤ c) :
    (computeLiability a brackets).liability ≤
      (computeLiability c brackets).liability := by
  by_cases ha : a ≤ 0
  · rw [computeLiability, if_pos ha]
    by_cases hc : c ≤ 0
    · rw [computeLiability, if_pos hc]
    · rw [computeLiability, if_neg hc]
      push_neg at hc
      have h := walk_tax_nonneg brackets 0 c hv hr hc
      rw [show c - 0 = c by ring] at h
      have h2 := roundToDollar_mono h
      rw [round0] at h2
      exact h2
  · push_neg at ha
    have hc : ¬ c ≤ 0 := by intro h; linarith
    rw [computeLiability, if_neg (not_le.mpr ha), computeLiability, if_neg hc]
    apply roundToDollar_mono
    have h := walk_tax_mono brackets 0 a c hv hr ha hac
    rw [show a - 0 = a by ring, show c - 0 = c by ring] at h
    exact h

theorem liability_monotone_witness :
    validSchedule singleBrackets2025 = true ∧
    (computeLiability 100 singleBrackets2025).liability ≤
      (computeLiability 200 singleBrackets2025).liability :=
  ⟨validSchedule_single2025,
   liability_monotone singleBrackets2025 validSchedule_single2025
     (by intro br hbr
         simp only [singleBrackets2025, List.mem_cons, List.not_mem_nil,
           or_false] at hbr
         rcases hbr with h | h | h | h | h | h | h <;> rw [h] <;> norm_num)
     100 200 (by norm_num)⟩

theorem foldl_addToGroups_same (entries : List PaystubEntry) :
    ∀ (L : String) (acc : List PaystubEntry),
    (∀ e ∈ entries, normLabel e.label = L) →
    entries.foldl (fun gs e => addToGroups gs (normLabel e.label) e) [(L, acc)]
      = [(L, acc ++ entries)] := by
  induction entries with
  | nil => intro L acc h; simp
  | cons e rest ih =>
    intro L acc h
    obtain ⟨he, hrest⟩ := List.forall_mem_cons.mp h
    rw [List.foldl_cons, he,
       show addToGroups [(L, acc)] L e = [(L, acc ++ [e])] from by
         rw [addToGroups, if_pos rfl],
       ih L (acc ++ [e]) hrest]
    simp

theorem groupStubs_same (entries : List PaystubEntry) (L : String)
    (hne : entries ≠ []) (h : ∀ e ∈ entries, normLabel e.label = L) :
    groupStubs entries = [(L, entries)] := by
  cases entries with
  | nil => exact absurd rfl hne
  | cons e rest =>
    obtain ⟨he, hrest⟩ := List.forall_mem_cons.mp h
    rw [groupStubs, List.foldl_cons, he,
       show addToGroups [] L e = [(L, [e])] from rfl,
       foldl_addToGroups_same rest L [e] hrest]
    rfl

theorem sortStubs_single (e : PaystubEntry) : sortStubs [e] = [e] := by
  simp [sortStubs, List.mergeSort]

theorem sortStubs_pair (a b : PaystubEntry) :
    sortStubs [a, b] = if stubLe a b then [a, b] else [b, a] := by
  rw [sortStubs]
  simp only [List.mergeSort]
  split <;> simp_all [List.merge]

theorem aggregate_single_group (entries : List PaystubEntry) (L : String)
    (hne : entries ≠ []) (h : ∀ e ∈ entries, normLabel e.label = L) :
    ∃ sel ∈ entries, aggregatePaystubEntries entries =
      ⟨roundToDollar (stubWages sel), roundToDollar (stubWithheld sel)⟩ := by
  cases entries with
  | nil => exact absurd rfl hne
  | cons e rest =>
    have hgroup := groupStubs_same (e :: rest) L hne h
    cases hsort : sortStubs (e :: rest) with
    | nil =>
      exfalso
      have hperm : (sortStubs (e :: rest)).Perm (e :: rest) :=
        List.mergeSort_perm (e :: rest) stubLe
      rw [hsort] at hperm
      exact absurd hperm.symm (by simp)
    | cons sel rest2 =>
      have hmem : sel ∈ e :: rest := by
        have hperm : (sortStubs (e :: rest)).Perm (e :: rest) :=
          List.mergeSort_perm (e :: rest) stubLe
        exact hperm.mem_iff.mp (by rw [hsort]; exact List.mem_cons_self _ _)
      refine ⟨sel, hmem, ?_⟩
      show aggregatePaystubEntries (e :: rest) = _
      rw [aggregatePaystubEntries, hgroup]
      simp only [List.foldl_cons, List.foldl_nil, hsort]
      rw [zero_add, zero_add]

theorem aggregate_pair_second (e1 e2 : PaystubEntry)
    (h : normLabel e1.label = normLabel e2.label)
    (hcmp : ¬ stubCompare e1 e2 ≤ 0) :
    aggregatePaystubEntries [e1, e2] =
      ⟨roundToDollar (stubWages e2), roundToDollar (stubWithheld e2)⟩ := by
  have hgroup := groupStubs_same [e1, e2] (normLabel e1.label) (by simp)
    (by intro x hx
        rcases List.mem_cons.mp hx with h1 | h1
        · rw [h1]
        · rw [List.mem_singleton.mp h1, h])
  have hle : stubLe e1 e2 = false := by
    rw [stubLe, decide_eq_false_iff_not]
    exact hcmp
  rw [aggregatePaystubEntries, hgroup]
  simp only [List.foldl_cons, List.foldl_nil, sortStubs_pair, hle,
    Bool.false_eq_true, if_false]
  rw [zero_add, zero_add]

/-- C4 (amended): for any group of same-label periodic entries, exactly one
entry is selected and only its figures contribute to the totals; with both
pay dates present the later-dated entry wins; with dates missing or equal,
the higher YTD-wage entry wins.  (Claim corrected: the figure contributed
once by two entries of identical YTD wages is the truthiness-resolved
figure of the selected entry, which differs from the shared YTD value when
that value is 0 and a current-period figure is present.) -/
theorem aggregator_selects_one :
    (∀ (entries : List PaystubEntry) (L : String), entries ≠ [] →
       (∀ e ∈ entries, normLabel e.label = L) →
       ∃ sel ∈ entries, aggregatePaystubEntries entries =
         ⟨roundToDollar (stubWages sel), roundToDollar (stubWithheld sel)⟩) ∧
    (∀ (e1 e2 : PaystubEntry) (t1 t2 : ℤ),
       normLabel e1.label = normLabel e2.label →
       e1.payDate = some t1 → e2.payDate = some t2 → t1 < t2 →
       aggregatePaystubEntries [e1, e2] =
         ⟨roundToDollar (stubWages e2), roundToDollar (stubWithheld e2)⟩) ∧
    (∀ (e1 e2 : PaystubEntry),
       normLabel e1.label = normLabel e2.label →
       (e1.payDate = none ∨ e2.payDate = none ∨ e1.payDate = e2.payDate) →
       jsOr e1.ytdTaxableWages 0 < jsOr e2.ytdTaxableWages 0 →
       aggregatePaystubEntries [e1, e2] =
         ⟨roundToDollar (stubWages e2), roundToDollar (stubWithheld e2)⟩) := by
  refine ⟨aggregate_single_group, ?_, ?_⟩
  · intro e1 e2 t1 t2 h hd1 hd2 hlt
    apply aggregate_pair_second e1 e2 h
    rw [stubCompare, hd1, hd2]
    dsimp only
    rw [if_neg (by intro hc; exact absurd hc (by omega))]
    rw [not_le]
    exact_mod_cast sub_pos.mpr hlt
  · intro e1 e2 h hdeg hw
    apply aggregate_pair_second e1 e2 h
    have hcmp : stubCompare e1 e2 =
        jsOr e2.ytdTaxableWages 0 - jsOr e1.ytdTaxableWages 0 := by
      rcases hdeg with hd | hd | hd
      · rw [stubCompare, hd]
      · rw [stubCompare, hd]
        cases e1.payDate <;> rfl
      · cases hd2 : e2.payDate with
        | none => rw [stubCompare, hd, hd2]
        | some t =>
          rw [stubCompare, hd, hd2]
          simp
    rw [hcmp, not_le]
    exact sub_pos.mpr hw

theorem round10000 : roundToDollar 10000 = 10000 :=
  roundToDollar_eval _ _ 10000 (by norm_num) (by norm_num) (by norm_num)

theorem aggregator_selects_one_witness :
    aggregatePaystubEntries
      [⟨some acmeLabel, some 115, some 5000, none, none, none⟩,
       ⟨some acmeLabel, some 215, some 10000, none, none, none⟩] =
      ⟨10000, 0⟩ := by
  have h := aggregator_selects_one.2.1
    ⟨some acmeLabel, some 115, some 5000, none, none, none⟩
    ⟨some acmeLabel, some 215, some 10000, none, none, none⟩
    115 215 rfl rfl rfl (by norm_num)
  rw [h]
  norm_num [stubWages, stubWithheld, jsOr, round0, round10000]

theorem round500 : roundToDollar 500 = 500 :=
  roundToDollar_eval _ _ 500 (by norm_num) (by norm_num) (by norm_num)

/-- C4 counterexample: two same-label entries with identical (zero)
year-to-date wages contribute 500 — the current-period figure of the
selected entry — rather than contributing the shared YTD wage figure (0) once. -/
theorem duplicate_zero_ytd_cex :
    aggregatePaystubEntries [zeroYtdStub500, zeroYtdStub300] = ⟨500, 0⟩ ∧
    ((500:ℚ) ≠ 0) := by
  refine ⟨?_, by norm_num⟩
  have hmem : ∀ x ∈ [zeroYtdStub500, zeroYtdStub300],
      normLabel x.label = normLabel (some acmeLabel) := by
    intro x hx
    rcases List.mem_cons.mp hx with h | h
    · rw [h]
      rfl
    · rw [List.mem_singleton.mp h]
      rfl
  have hgroup := groupStubs_same [zeroYtdStub500, zeroYtdStub300]
    (normLabel (some acmeLabel)) (by simp) hmem
  have hle : stubLe zeroYtdStub500 zeroYtdStub300 = true := by
    rw [stubLe, decide_eq_true_eq, stubCompare, zeroYtdStub500, zeroYtdStub300]
    norm_num [jsOr]
  rw [aggregatePaystubEntries, hgroup]
  simp only [List.foldl_cons, List.foldl_nil, sortStubs_pair, hle, if_true]
  rw [zero_add, zero_add]
  norm_num [stubWages, stubWithheld, jsOr, zeroYtdStub500, round0, round500]

/-- C6 counterexample: an entry whose year-to-date wages are present but 0
and whose current-period wages are 500 contributes 500, not the present
year-to-date value 0 — the `||` fallback is by truthiness, not presence. -/
theorem ytd_zero_fallback_cex :
    zeroYtdStub500.ytdTaxableWages = some 0 ∧
    (aggregatePaystubEntries [zeroYtdStub500]).totalWages = 500 ∧
    ((500:ℚ) ≠ 0) := by
  refine ⟨rfl, ?_, by norm_num⟩
  have hgroup := groupStubs_same [zeroYtdStub500] (normLabel (some acmeLabel))
    (by simp) (by intro x hx; rw [List.mem_singleton.mp hx]; rfl)
  rw [aggregatePaystubEntries, hgroup]
  simp only [List.foldl_cons, List.foldl_nil, sortStubs_single]
  norm_num [stubWages, jsOr, zeroYtdStub500, round500]

/-- C6 (amended): the single selected entry of a group contributes its
truthiness-resolved figures: year-to-date wages when present and nonzero,
else current-period wages when present and nonzero, else 0 — a present
year-to-date value of 0 falls through to the current-period figure
(symmetrically for withholding). -/
theorem selected_entry_contribution :
    (∀ e : PaystubEntry, aggregatePaystubEntries [e] =
       ⟨roundToDollar (stubWages e), roundToDollar (stubWithheld e)⟩) ∧
    (∀ (e : PaystubEntry) (v : ℚ), e.ytdTaxableWages = some v → v ≠ 0 →
       stubWages e = v) ∧
    (∀ e : PaystubEntry,
       e.ytdTaxableWages = none ∨ e.ytdTaxableWages = some 0 →
       stubWages e = jsOr e.currentTaxableWages 0) ∧
    (∀ (e : PaystubEntry) (v : ℚ), e.ytdFedWithheld = some v → v ≠ 0 →
       stubWithheld e = v) ∧
    (∀ e : PaystubEntry,
       e.ytdFedWithheld = none ∨ e.ytdFedWithheld = some 0 →
       stubWithheld e = jsOr e.currentFedWithheld 0) := by
  refine ⟨?_, ?_, ?_, ?_, ?_⟩
  · intro e
    have hgroup := groupStubs_same [e] (normLabel e.label) (by simp)
      (by intro x hx; rw [List.mem_singleton.mp hx])
    rw [aggregatePaystubEntries, hgroup]
    simp only [List.foldl_cons, List.foldl_nil, sortStubs_single]
    rw [zero_add, zero_add]
  · intro e v hv hnz
    rw [stubWages, hv, jsOr, if_neg hnz]
  · intro e hv
    rcases hv with hv | hv
    · rw [stubWages, hv]
      rfl
    · rw [stubWages, hv]
      simp [jsOr]
  · intro e v hv hnz
    rw [stubWithheld, hv, jsOr, if_neg hnz]
  · intro e hv
    rcases hv with hv | hv
    · rw [stubWithheld, hv]
      rfl
    · rw [stubWithheld, hv]
      simp [jsOr]

theorem round7000 : roundToDollar 7000 = 7000 :=
  roundToDollar_eval _ _ 7000 (by norm_num) (by norm_num) (by norm_num)

theorem round100 : roundToDollar 100 = 100 :=
  roundToDollar_eval _ _ 100 (by norm_num) (by norm_num) (by norm_num)

theorem selected_entry_contribution_witness :
    aggregatePaystubEntries
      [⟨some acmeLabel, none, some 7000, some 100, none, none⟩] =
      ⟨7000, 100⟩ := by
  have ha := selected_entry_contribution.1
    ⟨some acmeLabel, none, some 7000, some 100, none, none⟩
  have hb := selected_entry_contribution.2.1
    ⟨some acmeLabel, none, some 7000, some 100, none, none⟩ 7000 rfl (by norm_num)
  have hd := selected_entry_contribution.2.2.2.1
    ⟨some acmeLabel, none, some 7000, some 100, none, none⟩ 100 rfl (by norm_num)
  rw [ha, hb, hd, round7000, round100]
